import Mathlib

/-!
Shallow embedding of the profile/action layer (`src/app/actions/profile-actions.ts`)
and the auth state mirror (`src/components/auth/auth-provider.tsx`).

The handlers delegate to a managed backend (auth, row store, object storage,
view-cache invalidation).  We embed each handler as a pure function over an
explicit environment that injects the remote collaborators' responses
(authenticated user, error outcomes, clock), and have it return its tagged
result together with a trace of the remote operations it performed and the
final contents of the object store.  Timestamps are modelled as the raw
millisecond clock value (the ISO formatting applied by `toISOString` is a
platform function, irrelevant to every property here).
-/

/-- A Supabase auth user as consumed by the actions: opaque id (plus email and
optional `user_metadata.display_name`, used by the auth mirror). -/
structure SupaUser where
  id : String
  email : String
  meta_display_name : Option String := none
deriving DecidableEq, Repr

/-- Patch written by `supabase.from("profiles").update(...)`: the actions set
either `display_name` or `avatar_url`, always together with `updated_at`. -/
structure ProfilePatch where
  display_name : Option String := none
  avatar_url : Option String := none
  updated_at : Nat
deriving DecidableEq, Repr

/-- A row of the `connected_accounts` table (fields the handler touches:
`user_id` for the filter, `created_at` for the ordering). -/
structure Account where
  user_id : String
  provider : String
  created_at : Nat
deriving DecidableEq, Repr

/-- Remote operations a handler can perform, recorded in order. -/
inductive Op where
  | getUser
  | updateProfiles (patch : ProfilePatch) (id : String)
  | selectConnected (userId : String)
  | storageUpload (bucket : String) (key : String)
  | storageGetPublicUrl (bucket : String) (key : String)
  | storageRemove (bucket : String) (keys : List String)
  | revalidate (path : String)
deriving DecidableEq, Repr

/-- Whether a remote operation mutates remote state or marks a view stale
(`updateProfiles`, `storageUpload`, `storageRemove`, `revalidate`);
`getUser`, `selectConnected` and `storageGetPublicUrl` are pure reads. -/
def Op.isWrite : Op → Bool
  | .updateProfiles _ _ => true
  | .storageUpload _ _ => true
  | .storageRemove _ _ => true
  | .revalidate _ => true
  | _ => false

/-- Environment injecting the remote collaborators' behaviour for one call:
`user` is what `auth.getUser()` resolves, `now` is `Date.now()`, the `*Error`
fields are the error outcomes of the corresponding remote calls (`none` =
success), `publicUrl` is the `getPublicUrl` response (`none` = no URL),
`connectedRows` is the contents of the `connected_accounts` table, and
`storage` the set of object keys initially present in the `avatars` bucket. -/
structure ActionEnv where
  user : Option SupaUser := none
  now : Nat := 0
  dbError : Option String := none
  uploadError : Option String := none
  publicUrl : Option String := none
  connectedError : Option String := none
  connectedRows : List Account := []
  storage : List String := []
deriving DecidableEq, Repr

/-- Tagged result of an action: `{error}` vs `{message}` (plus `avatarUrl`
on avatar-upload success). -/
inductive ActionResult where
  | err (msg : String)
  | ok (msg : String) (avatarUrl : Option String := none)
deriving DecidableEq, Repr

/-- What one handler call produced: the tagged result, the ordered trace of
remote operations, and the final contents of the object store. -/
structure ActionOut where
  result : ActionResult
  trace : List Op
  storage : List String
deriving DecidableEq, Repr

/-- Handler `updateProfile` (profile-actions.ts:8-37).  `displayName` is
`formData.get("displayName")`: `none` models a missing entry; the code's
`!displayName || displayName.length === 0` collapses missing and empty. -/
def updateProfile (env : ActionEnv) (displayName : Option String) : ActionOut :=
  match env.user with
  | none => ⟨.err "User not authenticated", [.getUser], env.storage⟩
  | some user =>
    match displayName with
    | none => ⟨.err "Display name must be between 1 and 32 characters", [.getUser], env.storage⟩
    | some dn =>
      if dn.length == 0 || dn.length > 32 then
        ⟨.err "Display name must be between 1 and 32 characters", [.getUser], env.storage⟩
      else
        let upd := Op.updateProfiles ⟨some dn, none, env.now⟩ user.id
        match env.dbError with
        | some m => ⟨.err ("Failed to update profile. " ++ m), [.getUser, upd], env.storage⟩
        | none =>
          ⟨.ok "Profile updated successfully",
           [.getUser, upd, .revalidate "/settings", .revalidate "/dashboard"], env.storage⟩

/-- The uploaded file as the handler reads it: `name`, `size` (bytes) and
MIME `type`.  `formData.get("avatar")` missing is `none` at the call site. -/
structure FileT where
  name : String
  size : Nat
  type : String
deriving DecidableEq, Repr

/-- JS `s.startsWith(pre)` as a character-list prefix test. -/
def beginsWith : List Char → List Char → Bool
  | [], _ => true
  | _ :: _, [] => false
  | a :: pres, b :: ss => a == b && beginsWith pres ss

/-- Expression `file.name.split(".").pop()`: the extension taken from the original file
name (the whole name when it has no dot, as in JS; the separator is the
single character `.`). -/
def fileExtension (name : String) : String :=
  String.mk ((name.toList.splitOn '.').getLastD [])

/-- The key fileName = `${user.id}-${Date.now()}.${fileExtension}` derived at
profile-actions.ts:64. -/
def avatarFileName (uid : String) (now : Nat) (origName : String) : String :=
  uid ++ "-" ++ toString now ++ "." ++ fileExtension origName

/-- The path `avatars/${fileName}` used for upload, getPublicUrl and remove
(profile-actions.ts:65). -/
def avatarFilePath (uid : String) (now : Nat) (origName : String) : String :=
  "avatars/" ++ avatarFileName uid now origName

/-- Handler `uploadAvatar` (profile-actions.ts:39-98).  Validation order is the
code's: presence/non-empty, then size, then MIME prefix.  On upload success
the key is added to storage; on profile-update failure the key is removed
again (the compensation at line 91). -/
def uploadAvatar (env : ActionEnv) (file : Option FileT) : ActionOut :=
  match env.user with
  | none => ⟨.err "User not authenticated", [.getUser], env.storage⟩
  | some user =>
    match file with
    | none => ⟨.err "No file selected", [.getUser], env.storage⟩
    | some f =>
      if f.size == 0 then
        ⟨.err "No file selected", [.getUser], env.storage⟩
      else if f.size > 2 * 1024 * 1024 then
        ⟨.err "File size must be less than 2MB", [.getUser], env.storage⟩
      else if !(beginsWith "image/".toList f.type.toList) then
        ⟨.err "File must be an image", [.getUser], env.storage⟩
      else
        let filePath := avatarFilePath user.id env.now f.name
        let tUp := [Op.getUser, Op.storageUpload "avatars" filePath]
        match env.uploadError with
        | some m => ⟨.err ("Failed to upload avatar. " ++ m), tUp, env.storage⟩
        | none =>
          let storage1 := env.storage ++ [filePath]
          let tUrl := tUp ++ [Op.storageGetPublicUrl "avatars" filePath]
          match env.publicUrl with
          | none => ⟨.err "Failed to get avatar URL.", tUrl, storage1⟩
          | some url =>
            let tDb := tUrl ++ [Op.updateProfiles ⟨none, some url, env.now⟩ user.id]
            match env.dbError with
            | some m =>
              ⟨.err ("Failed to update profile with new avatar. " ++ m),
               tDb ++ [Op.storageRemove "avatars" [filePath]],
               storage1.filter (· ≠ filePath)⟩
            | none =>
              ⟨.ok "Avatar updated successfully" (some url),
               tDb ++ [.revalidate "/settings", .revalidate "/dashboard"], storage1⟩

/-- Result of `getConnectedAccounts`: optional error message and the accounts
list (empty alongside every error), plus the trace for side-effect analysis. -/
structure AccountsOut where
  error : Option String
  accounts : List Account
  trace : List Op
deriving DecidableEq, Repr

/-- Ascending order on `created_at`, the `order("created_at", {ascending:
true})` the handler requests from the row store. -/
def accLE (a b : Account) : Prop := a.created_at ≤ b.created_at

instance : DecidableRel accLE := fun a b => Nat.decLe a.created_at b.created_at

instance : IsTotal Account accLE := ⟨fun a b => Nat.le_total a.created_at b.created_at⟩

instance : IsTrans Account accLE := ⟨fun _ _ _ => Nat.le_trans⟩

/-- Modelled from the spec: the row store's
`selectMany(table, filter, orderBy)` collaborator (spec §6), consumed by
`getConnectedAccounts` — rows matching the filter, ordered as requested
(here: `user_id` equality, `created_at` ascending). -/
def selectConnectedOrdered (rows : List Account) (uid : String) : List Account :=
  List.insertionSort accLE (rows.filter (fun a => a.user_id == uid))

/-- Handler `getConnectedAccounts` (profile-actions.ts:100-121). -/
def getConnectedAccounts (env : ActionEnv) : AccountsOut :=
  match env.user with
  | none => ⟨some "User not authenticated", [], [.getUser]⟩
  | some user =>
    match env.connectedError with
    | some m =>
      ⟨some ("Failed to fetch connected accounts. " ++ m), [],
       [.getUser, .selectConnected user.id]⟩
    | none =>
      ⟨none, selectConnectedOrdered env.connectedRows user.id,
       [.getUser, .selectConnected user.id]⟩

/-- An activity record of the mocked search (profile-actions.ts:146-168).
Creation timestamps are kept as raw millisecond values. -/
structure ActivityRecord where
  id : String
  title : String
  description : String
  activity_type : String
  created_at : Int
deriving DecidableEq, Repr

/-- JS `toLowerCase()` on the ASCII strings involved: per-character
lowercasing, as a character list. -/
def lowerList (s : String) : List Char :=
  s.toList.map Char.toLower

/-- JS `String.prototype.includes`: `pat` occurs in `l` as a contiguous
run (always true for the empty pattern). -/
def listIncludes (l pat : List Char) : Bool :=
  (List.range (l.length + 1)).any (fun i => (l.drop i).take pat.length == pat)

/-- The fixed candidate list `mockResults` (profile-actions.ts:146-168),
with `created_at` derived from the clock as in the source. -/
def mockResults (now : Int) : List ActivityRecord :=
  [⟨"1", "QueueCX Integration Setup",
    "Configured QueueCX integration with production environment", "session", now⟩,
   ⟨"2", "Environment Aware Configuration",
    "Updated environment awareness settings for better monitoring", "document", now - 86400000⟩,
   ⟨"3", "Fluidity Index Analysis",
    "Analyzed system fluidity metrics and performance indicators", "meeting", now - 172800000⟩]

/-- The filter predicate at profile-actions.ts:174-178: title or description
contains the query, case-insensitively. -/
def activityMatches (query : String) (item : ActivityRecord) : Bool :=
  listIncludes (lowerList item.title) (lowerList query) ||
  listIncludes (lowerList item.description) (lowerList query)

/-- Handler `searchActivity` (profile-actions.ts:141-181): the empty query
returns all candidates, otherwise the case-insensitive substring filter. -/
def searchActivity (query : String) (now : Int) : List ActivityRecord :=
  if query.isEmpty then mockResults now
  else (mockResults now).filter (activityMatches query)

/-- A profile row (auth-provider.tsx:9); timestamps as raw clock values. -/
structure Profile where
  id : String
  display_name : String
  avatar_url : Option String
  email : String
  created_at : Nat
  updated_at : Nat
deriving DecidableEq, Repr

/-- A remote session; the mirror only ever reads its `user`. -/
structure SessionT where
  user : SupaUser
deriving DecidableEq, Repr

/-- The mirrored identity `User & { profile?: Profile }`: the remote user
together with an optional profile (`none` models the absent field). -/
structure MirroredUser where
  base : SupaUser
  profile : Option Profile
deriving DecidableEq, Repr

/-- The mirror's state `{user, session, loading}` (auth-provider.tsx:24-26). -/
structure AuthState where
  user : Option MirroredUser
  session : Option SessionT
  loading : Bool
deriving DecidableEq, Repr

/-- Initial state: `useState(null)`, `useState(null)`, `useState(true)`. -/
def initState : AuthState := ⟨none, none, true⟩

/-- The demo identity synthesized in unconfigured mode (auth-provider.tsx:46-60). -/
def demoUser : SupaUser := ⟨"demo-user", "demo@queuecx.com", some "Demo User"⟩

/-- The demo profile synthesized in unconfigured mode (auth-provider.tsx:52-59). -/
def demoProfile (now : Nat) : Profile :=
  ⟨"demo-user", "Demo User", none, "demo@queuecx.com", now, now⟩

/-- JS `email.split("@")[0]`: the local part before the first `@`. -/
def localPart (email : String) : String :=
  String.mk ((email.toList.splitOn '@').headD [])

/-- The identity synthesized by demo-mode signIn/signUp (auth-provider.tsx:95-101,
115-121): fixed id, given email, display name from the email's local part;
no `profile` field is set. -/
def demoSignInUser (email : String) : SupaUser :=
  ⟨"demo-user", email, some (localPart email)⟩

/-- Events that drive the mirror's state.  `sessionEvent s fetched` covers
both the initial `getSession` resolution and an `onAuthStateChange`
notification (the code handles them identically); `fetched` is the outcome
of the profile fetch performed when the session carries a user (`none` =
fetch failed; it is irrelevant when the session has no user, since no fetch
happens then).  The demo events are the unconfigured-mode branches; in
configured mode signIn/signUp/signOut mutate no local state directly (state
flows back through session events). -/
inductive AuthEvent where
  | mountDemo (now : Nat)
  | sessionEvent (s : Option SessionT) (fetched : Option Profile)
  | demoSignIn (email : String)
  | demoSignUp (email : String)
  | demoSignOut
deriving DecidableEq, Repr

/-- One step of the mirror: the state written by the corresponding handler
in auth-provider.tsx (`updateUserProfile` for session events). -/
def authStep (st : AuthState) (e : AuthEvent) : AuthState :=
  match e with
  | .mountDemo now =>
    { st with user := some ⟨demoUser, some (demoProfile now)⟩, loading := false }
  | .sessionEvent s fetched =>
    { user := match s with
              | some sess => some ⟨sess.user, fetched⟩
              | none => none,
      session := s,
      loading := false }
  | .demoSignIn email => { st with user := some ⟨demoSignInUser email, none⟩ }
  | .demoSignUp email => { st with user := some ⟨demoSignInUser email, none⟩ }
  | .demoSignOut => { st with user := none, session := none }

/-- Run the mirror from mount over a sequence of events. -/
def runAuth (evs : List AuthEvent) : AuthState :=
  evs.foldl authStep initState

/-- Configured-mode run: every state change is a session event (initial
resolution first, then change notifications). -/
def runConfigured (evs : List (Option SessionT × Option Profile)) : AuthState :=
  (evs.map (fun p => AuthEvent.sessionEvent p.1 p.2)).foldl authStep initState

/-- Concrete authenticated user used by the witness theorems. -/
def wUser : SupaUser := ⟨"user-1", "user-1@example.com", none⟩

/-- Environment for the compensation path: upload succeeds, the public URL
resolves, the profile-row update fails. -/
def wEnvDbFail : ActionEnv :=
  { user := some wUser, now := 5, publicUrl := some "https://cdn/a.png",
    dbError := some "db down", storage := ["other-key"] }

/-- Environment for the public-URL failure path: upload succeeds, no URL. -/
def wEnvUrlFail : ActionEnv :=
  { user := some wUser, now := 5, publicUrl := none, storage := ["other-key"] }

/-- A small valid image file fixture. -/
def wFile : FileT := ⟨"a.png", 10, "image/png"⟩

/-- An image file of exactly 2 MiB. -/
def wFile2M : FileT := ⟨"b.jpg", 2 * 1024 * 1024, "image/jpeg"⟩

/-- Environment with connected-account rows of two identities, out of order. -/
def wEnvAccounts : ActionEnv :=
  { user := some wUser,
    connectedRows := [⟨"user-1", "github", 9⟩, ⟨"user-1", "google", 3⟩, ⟨"other", "github", 1⟩] }

/-- Accepting all keys except `k`; filtering with it models the remove. -/
theorem contains_filter_ne (l : List String) (k : String) :
    (l.filter (fun x => x ≠ k)).contains k = false := by
  simp [List.contains, List.mem_filter]

/-- Claim C1: if the caller is authenticated, the file passes validation,
the object upload succeeds, a public URL is obtained, and the profile-row
update fails, then `uploadAvatar` returns the tagged error carrying the
remote error message, the last remote operation before returning is the
removal of the just-uploaded key, and the final storage no longer contains
that key. -/
theorem claim_C1_compensation_on_db_failure (env : ActionEnv) (u : SupaUser) (f : FileT)
    (url m : String)
    (hu : env.user = some u) (hpos : 0 < f.size) (hsz : f.size ≤ 2 * 1024 * 1024)
    (him : beginsWith "image/".toList f.type.toList = true)
    (hup : env.uploadError = none) (hurl : env.publicUrl = some url)
    (hdb : env.dbError = some m) :
    (uploadAvatar env (some f)).result
        = .err ("Failed to update profile with new avatar. " ++ m) ∧
    (uploadAvatar env (some f)).trace.getLast? =
        some (Op.storageRemove "avatars" [avatarFilePath u.id env.now f.name]) ∧
    (uploadAvatar env (some f)).storage.contains (avatarFilePath u.id env.now f.name)
        = false := by
  have h0 : (f.size == 0) = false := by
    simp only [beq_eq_false_iff_ne]; omega
  have h2 : (f.size > 2 * 1024 * 1024) = False := by
    simp only [eq_iff_iff, iff_false]; omega
  have him2 : beginsWith ['i', 'm', 'a', 'g', 'e', '/'] f.type.data = true := him
  refine ⟨?_, ?_, ?_⟩ <;>
    simp [uploadAvatar, hu, hup, hurl, hdb, h0, h2, him2, contains_filter_ne]

/-- Witness for C1 at a concrete environment and file. -/
theorem claim_C1_compensation_on_db_failure_witness :
    (uploadAvatar wEnvDbFail (some wFile)).result
        = .err ("Failed to update profile with new avatar. " ++ "db down") ∧
    (uploadAvatar wEnvDbFail (some wFile)).trace.getLast? =
        some (Op.storageRemove "avatars" [avatarFilePath wUser.id wEnvDbFail.now wFile.name]) ∧
    (uploadAvatar wEnvDbFail (some wFile)).storage.contains
        (avatarFilePath wUser.id wEnvDbFail.now wFile.name) = false :=
  claim_C1_compensation_on_db_failure wEnvDbFail wUser wFile "https://cdn/a.png" "db down"
    rfl (by decide) (by decide) (by decide) rfl rfl rfl

/-- Claim C2, counterexample: an unauthenticated caller submitting an
invalid (empty) display name gets the authentication error, not the
validation error, and a remote call (`auth.getUser`) is in the trace — so
the validation result does not hold "regardless of whether the caller is
authenticated", nor is it reached with "no remote call of any kind". -/
theorem claim_C2_counterexample :
    (updateProfile { user := none } (some "")).result = .err "User not authenticated" ∧
    ((updateProfile { user := none } (some "")).result
        == ActionResult.err "Display name must be between 1 and 32 characters") = false ∧
    Op.getUser ∈ (updateProfile { user := none } (some "")).trace := by
  decide

/-- Claim C2, amended: for an authenticated caller, a display-name input
violating the presence/length constraint (absent, length 0, or length
greater than 32) yields the validation error, and the only remote call made
is the auth lookup that precedes validation — in particular no persistence
call; an unauthenticated caller instead receives the auth error first. -/
theorem claim_C2_amended_validation (env : ActionEnv) (u : SupaUser) (dn : Option String)
    (hu : env.user = some u)
    (hdn : dn = none ∨ ∃ s, dn = some s ∧ (s.length = 0 ∨ s.length > 32)) :
    (updateProfile env dn).result = .err "Display name must be between 1 and 32 characters" ∧
    (updateProfile env dn).trace = [Op.getUser] := by
  rcases hdn with rfl | ⟨s, rfl, hs⟩
  · constructor <;> simp [updateProfile, hu]
  · have hc : (s.length == 0 || decide (s.length > 32)) = true := by
      rcases hs with h | h <;> simp [h]
    constructor <;> simp [updateProfile, hu, hc]

/-- Witness for the amended C2 at a concrete environment and input. -/
theorem claim_C2_amended_validation_witness :
    (updateProfile { user := some wUser } (some "")).result
        = .err "Display name must be between 1 and 32 characters" ∧
    (updateProfile { user := some wUser } (some "")).trace = [Op.getUser] :=
  claim_C2_amended_validation { user := some wUser } wUser (some "") rfl
    (Or.inr ⟨"", rfl, Or.inl rfl⟩)

/-- Claim C4: for an authenticated caller the input-file checks run in
order — presence/non-emptiness, then the 2 MiB size bound, then the
`image/` MIME prefix — the first failure short-circuiting with its own
message, and a file of exactly 2 MiB with an image MIME passes all three
checks (the handler proceeds to the storage upload). -/
theorem claim_C4_upload_validation_order :
    (∀ (env : ActionEnv) (u : SupaUser), env.user = some u →
        (uploadAvatar env none).result = .err "No file selected") ∧
    (∀ (env : ActionEnv) (u : SupaUser) (f : FileT), env.user = some u → f.size = 0 →
        (uploadAvatar env (some f)).result = .err "No file selected") ∧
    (∀ (env : ActionEnv) (u : SupaUser) (f : FileT), env.user = some u →
        f.size > 2 * 1024 * 1024 →
        (uploadAvatar env (some f)).result = .err "File size must be less than 2MB") ∧
    (∀ (env : ActionEnv) (u : SupaUser) (f : FileT), env.user = some u →
        0 < f.size → f.size ≤ 2 * 1024 * 1024 →
        beginsWith "image/".toList f.type.toList = false →
        (uploadAvatar env (some f)).result = .err "File must be an image") ∧
    (∀ (env : ActionEnv) (u : SupaUser) (f : FileT), env.user = some u →
        f.size = 2 * 1024 * 1024 →
        beginsWith "image/".toList f.type.toList = true →
        (uploadAvatar env (some f)).trace.take 2 =
          [Op.getUser, Op.storageUpload "avatars" (avatarFilePath u.id env.now f.name)]) := by
  refine ⟨?_, ?_, ?_, ?_, ?_⟩
  · intro env u hu
    simp [uploadAvatar, hu]
  · intro env u f hu hsz
    simp [uploadAvatar, hu, hsz]
  · intro env u f hu hsz
    have h0 : (f.size == 0) = false := by
      simp only [beq_eq_false_iff_ne]; omega
    simp [uploadAvatar, hu, h0, hsz]
  · intro env u f hu hpos hsz him
    have h0 : (f.size == 0) = false := by
      simp only [beq_eq_false_iff_ne]; omega
    have h2 : (f.size > 2 * 1024 * 1024) = False := by
      simp only [eq_iff_iff, iff_false]; omega
    have him2 : beginsWith ['i', 'm', 'a', 'g', 'e', '/'] f.type.data = false := him
    simp [uploadAvatar, hu, h0, h2, him2]
  · intro env u f hu hsz him
    have him2 : beginsWith ['i', 'm', 'a', 'g', 'e', '/'] f.type.data = true := him
    cases hup : env.uploadError <;> cases hurl : env.publicUrl <;> cases hdb : env.dbError <;>
      simp [uploadAvatar, hu, hsz, him2, hup, hurl, hdb]

/-- Witness for C4: each validation branch and the 2 MiB pass, concretely. -/
theorem claim_C4_upload_validation_order_witness :
    (uploadAvatar { user := some wUser } none).result = .err "No file selected" ∧
    (uploadAvatar { user := some wUser }
        (some ⟨"a.png", 0, "image/png"⟩)).result = .err "No file selected" ∧
    (uploadAvatar { user := some wUser }
        (some ⟨"a.png", 2 * 1024 * 1024 + 1, "image/png"⟩)).result
        = .err "File size must be less than 2MB" ∧
    (uploadAvatar { user := some wUser }
        (some ⟨"a.txt", 5, "text/plain"⟩)).result = .err "File must be an image" ∧
    (uploadAvatar { user := some wUser, now := 5 } (some wFile2M)).trace.take 2 =
      [Op.getUser, Op.storageUpload "avatars" (avatarFilePath wUser.id 5 wFile2M.name)] :=
  ⟨claim_C4_upload_validation_order.1 _ wUser rfl,
   claim_C4_upload_validation_order.2.1 _ wUser _ rfl rfl,
   claim_C4_upload_validation_order.2.2.1 _ wUser _ rfl (by decide),
   claim_C4_upload_validation_order.2.2.2.1 _ wUser _ rfl (by decide) (by decide) (by decide),
   claim_C4_upload_validation_order.2.2.2.2 _ wUser _ rfl rfl (by decide)⟩

/-- Claim C5: authenticated display-name update rejects lengths 0 and 33
with the validation error, and accepts lengths 1 and 32, proceeding to the
persistence call that writes the display name together with the updated
timestamp, keyed by the caller's id. -/
theorem claim_C5_display_name_boundaries :
    (∀ (env : ActionEnv) (u : SupaUser) (s : String), env.user = some u → s.length = 0 →
        (updateProfile env (some s)).result
          = .err "Display name must be between 1 and 32 characters") ∧
    (∀ (env : ActionEnv) (u : SupaUser) (s : String), env.user = some u → s.length = 33 →
        (updateProfile env (some s)).result
          = .err "Display name must be between 1 and 32 characters") ∧
    (∀ (env : ActionEnv) (u : SupaUser) (s : String), env.user = some u → s.length = 1 →
        Op.updateProfiles ⟨some s, none, env.now⟩ u.id ∈ (updateProfile env (some s)).trace) ∧
    (∀ (env : ActionEnv) (u : SupaUser) (s : String), env.user = some u → s.length = 32 →
        Op.updateProfiles ⟨some s, none, env.now⟩ u.id ∈ (updateProfile env (some s)).trace) := by
  refine ⟨?_, ?_, ?_, ?_⟩
  · intro env u s hu hl
    simp [updateProfile, hu, hl]
  · intro env u s hu hl
    simp [updateProfile, hu, hl]
  · intro env u s hu hl
    cases hdb : env.dbError <;> simp [updateProfile, hu, hl, hdb]
  · intro env u s hu hl
    cases hdb : env.dbError <;> simp [updateProfile, hu, hl, hdb]

/-- Witness for C5 at concrete display names of lengths 0, 33, 1 and 32. -/
theorem claim_C5_display_name_boundaries_witness :
    (updateProfile { user := some wUser } (some "")).result
        = .err "Display name must be between 1 and 32 characters" ∧
    (updateProfile { user := some wUser }
        (some (String.mk (List.replicate 33 'a')))).result
        = .err "Display name must be between 1 and 32 characters" ∧
    Op.updateProfiles ⟨some "x", none, 0⟩ wUser.id
        ∈ (updateProfile { user := some wUser } (some "x")).trace ∧
    Op.updateProfiles ⟨some (String.mk (List.replicate 32 'a')), none, 0⟩ wUser.id
        ∈ (updateProfile { user := some wUser }
            (some (String.mk (List.replicate 32 'a')))).trace :=
  ⟨claim_C5_display_name_boundaries.1 _ wUser "" rfl rfl,
   claim_C5_display_name_boundaries.2.1 _ wUser _ rfl (by decide),
   claim_C5_display_name_boundaries.2.2.1 _ wUser "x" rfl rfl,
   claim_C5_display_name_boundaries.2.2.2 _ wUser _ rfl (by decide)⟩

/-- Claim C6: connected-accounts listing returns the auth error with an
empty list for an unauthenticated caller, the remote error (message
surfaced) with an empty list on query failure, and otherwise exactly the
caller's rows ordered ascending by creation time; its trace never contains
a write or a view invalidation. -/
theorem claim_C6_connected_accounts :
    (∀ env : ActionEnv, env.user = none →
        getConnectedAccounts env = ⟨some "User not authenticated", [], [Op.getUser]⟩) ∧
    (∀ (env : ActionEnv) (u : SupaUser) (m : String), env.user = some u →
        env.connectedError = some m →
        (getConnectedAccounts env).error = some ("Failed to fetch connected accounts. " ++ m) ∧
        (getConnectedAccounts env).accounts = []) ∧
    (∀ (env : ActionEnv) (u : SupaUser), env.user = some u → env.connectedError = none →
        List.Perm (getConnectedAccounts env).accounts
            (env.connectedRows.filter (fun a => a.user_id == u.id)) ∧
        List.Sorted accLE (getConnectedAccounts env).accounts) ∧
    (∀ env : ActionEnv, (getConnectedAccounts env).trace.all (fun op => !op.isWrite) = true) := by
  refine ⟨?_, ?_, ?_, ?_⟩
  · intro env hu
    simp [getConnectedAccounts, hu]
  · intro env u m hu hc
    constructor <;> simp [getConnectedAccounts, hu, hc]
  · intro env u hu hc
    have hout : getConnectedAccounts env =
        ⟨none, selectConnectedOrdered env.connectedRows u.id,
         [.getUser, .selectConnected u.id]⟩ := by
      simp [getConnectedAccounts, hu, hc]
    rw [hout]
    exact ⟨List.perm_insertionSort accLE _, List.sorted_insertionSort accLE _⟩
  · intro env
    cases hu : env.user
    · simp [getConnectedAccounts, hu, Op.isWrite]
    · cases hc : env.connectedError <;> simp [getConnectedAccounts, hu, hc, Op.isWrite]

/-- Witness for C6: the three result shapes and the read-only trace at
concrete environments (rows of two identities, unsorted on purpose). -/
theorem claim_C6_connected_accounts_witness :
    getConnectedAccounts { user := none }
        = ⟨some "User not authenticated", [], [Op.getUser]⟩ ∧
    ((getConnectedAccounts { user := some wUser, connectedError := some "net down" }).error
        = some ("Failed to fetch connected accounts. " ++ "net down") ∧
     (getConnectedAccounts { user := some wUser, connectedError := some "net down" }).accounts
        = []) ∧
    (List.Perm (getConnectedAccounts wEnvAccounts).accounts
        (wEnvAccounts.connectedRows.filter (fun a => a.user_id == wUser.id)) ∧
     List.Sorted accLE (getConnectedAccounts wEnvAccounts).accounts) ∧
    (getConnectedAccounts wEnvAccounts).trace.all (fun op => !op.isWrite) = true :=
  ⟨claim_C6_connected_accounts.1 { user := none } rfl,
   claim_C6_connected_accounts.2.1 _ wUser "net down" rfl rfl,
   claim_C6_connected_accounts.2.2.1 wEnvAccounts wUser rfl rfl,
   claim_C6_connected_accounts.2.2.2 wEnvAccounts⟩

/-- Claim C7: activity search returns, for the empty query, the whole fixed
3-candidate list, and otherwise exactly the candidates whose title or
description contains the query case-insensitively; concretely, "queuecx" in
any letter case returns the single matching candidate and an unmatched
query returns the empty list. -/
theorem claim_C7_search_substring_filter :
    (∀ (q : String) (now : Int) (x : ActivityRecord),
        x ∈ searchActivity q now ↔
          x ∈ mockResults now ∧ (q.isEmpty || activityMatches q x) = true) ∧
    searchActivity "" 0 = mockResults 0 ∧
    (mockResults 0).length = 3 ∧
    searchActivity "QUEUECX" 0 =
      [⟨"1", "QueueCX Integration Setup",
        "Configured QueueCX integration with production environment", "session", 0⟩] ∧
    searchActivity "qUeUeCx" 0 =
      [⟨"1", "QueueCX Integration Setup",
        "Configured QueueCX integration with production environment", "session", 0⟩] ∧
    searchActivity "zzzz" 0 = [] := by
  refine ⟨?_, by decide, by decide, by decide, by decide, by decide⟩
  intro q now x
  cases hq : q.isEmpty
  · simp [searchActivity, hq, List.mem_filter]
  · simp [searchActivity, hq]

/-- Claim C9: every upload that passes validation uses the storage key
built from the caller's id, a hyphen, the millisecond clock, a dot and the
extension of the original file name, under the fixed `avatars` bucket and
its fixed `avatars/` folder; the same key is used for the upload, the
public-URL request, and the compensating remove. -/
theorem claim_C9_storage_key (env : ActionEnv) (u : SupaUser) (f : FileT)
    (hu : env.user = some u) (hpos : 0 < f.size) (hsz : f.size ≤ 2 * 1024 * 1024)
    (him : beginsWith "image/".toList f.type.toList = true) :
    (uploadAvatar env (some f)).trace.take 2 =
      [Op.getUser,
       Op.storageUpload "avatars"
         ("avatars/" ++ (u.id ++ "-" ++ toString env.now ++ "." ++ fileExtension f.name))] ∧
    (env.uploadError = none →
      (uploadAvatar env (some f)).trace.take 3 =
        [Op.getUser,
         Op.storageUpload "avatars"
           ("avatars/" ++ (u.id ++ "-" ++ toString env.now ++ "." ++ fileExtension f.name)),
         Op.storageGetPublicUrl "avatars"
           ("avatars/" ++ (u.id ++ "-" ++ toString env.now ++ "." ++ fileExtension f.name))]) ∧
    (∀ url m, env.uploadError = none → env.publicUrl = some url → env.dbError = some m →
      (uploadAvatar env (some f)).trace =
        [Op.getUser,
         Op.storageUpload "avatars"
           ("avatars/" ++ (u.id ++ "-" ++ toString env.now ++ "." ++ fileExtension f.name)),
         Op.storageGetPublicUrl "avatars"
           ("avatars/" ++ (u.id ++ "-" ++ toString env.now ++ "." ++ fileExtension f.name)),
         Op.updateProfiles ⟨none, some url, env.now⟩ u.id,
         Op.storageRemove "avatars"
           [("avatars/" ++ (u.id ++ "-" ++ toString env.now ++ "." ++ fileExtension f.name))]]) := by
  have h0 : (f.size == 0) = false := by
    simp only [beq_eq_false_iff_ne]; omega
  have h2 : (f.size > 2 * 1024 * 1024) = False := by
    simp only [eq_iff_iff, iff_false]; omega
  have him2 : beginsWith ['i', 'm', 'a', 'g', 'e', '/'] f.type.data = true := him
  refine ⟨?_, ?_, ?_⟩
  · cases hup : env.uploadError <;> cases hurl : env.publicUrl <;> cases hdb : env.dbError <;>
      simp [uploadAvatar, hu, h0, h2, him2, hup, hurl, hdb, avatarFilePath, avatarFileName]
  · intro hup
    cases hurl : env.publicUrl <;> cases hdb : env.dbError <;>
      simp [uploadAvatar, hu, h0, h2, him2, hup, hurl, hdb, avatarFilePath, avatarFileName]
  · intro url m hup hurl hdb
    simp [uploadAvatar, hu, h0, h2, him2, hup, hurl, hdb, avatarFilePath, avatarFileName]

/-- Witness for C9 at a concrete environment and file, checking the derived
key string itself. -/
theorem claim_C9_storage_key_witness :
    (uploadAvatar wEnvDbFail (some wFile)).trace.take 2 =
      [Op.getUser,
       Op.storageUpload "avatars"
         ("avatars/" ++ (wUser.id ++ "-" ++ toString wEnvDbFail.now ++ "." ++ fileExtension wFile.name))] ∧
    (wEnvDbFail.uploadError = none →
      (uploadAvatar wEnvDbFail (some wFile)).trace.take 3 =
        [Op.getUser,
         Op.storageUpload "avatars"
           ("avatars/" ++ (wUser.id ++ "-" ++ toString wEnvDbFail.now ++ "." ++ fileExtension wFile.name)),
         Op.storageGetPublicUrl "avatars"
           ("avatars/" ++ (wUser.id ++ "-" ++ toString wEnvDbFail.now ++ "." ++ fileExtension wFile.name))]) ∧
    (∀ url m, wEnvDbFail.uploadError = none → wEnvDbFail.publicUrl = some url →
      wEnvDbFail.dbError = some m →
      (uploadAvatar wEnvDbFail (some wFile)).trace =
        [Op.getUser,
         Op.storageUpload "avatars"
           ("avatars/" ++ (wUser.id ++ "-" ++ toString wEnvDbFail.now ++ "." ++ fileExtension wFile.name)),
         Op.storageGetPublicUrl "avatars"
           ("avatars/" ++ (wUser.id ++ "-" ++ toString wEnvDbFail.now ++ "." ++ fileExtension wFile.name)),
         Op.updateProfiles ⟨none, some url, wEnvDbFail.now⟩ wUser.id,
         Op.storageRemove "avatars"
           [("avatars/" ++ (wUser.id ++ "-" ++ toString wEnvDbFail.now ++ "." ++ fileExtension wFile.name))]]) :=
  claim_C9_storage_key wEnvDbFail wUser wFile rfl (by decide) (by decide) (by decide)

/-- Claim C10: if the upload succeeds but no public URL is obtained, the
handler returns the error "Failed to get avatar URL." without compensating:
the trace ends at the public-URL request (no remove), and the uploaded key
is still in storage. -/
theorem claim_C10_url_failure_leaves_object (env : ActionEnv) (u : SupaUser) (f : FileT)
    (hu : env.user = some u) (hpos : 0 < f.size) (hsz : f.size ≤ 2 * 1024 * 1024)
    (him : beginsWith "image/".toList f.type.toList = true)
    (hup : env.uploadError = none) (hurl : env.publicUrl = none) :
    (uploadAvatar env (some f)).result = .err "Failed to get avatar URL." ∧
    (uploadAvatar env (some f)).trace =
      [Op.getUser, Op.storageUpload "avatars" (avatarFilePath u.id env.now f.name),
       Op.storageGetPublicUrl "avatars" (avatarFilePath u.id env.now f.name)] ∧
    (uploadAvatar env (some f)).storage.contains (avatarFilePath u.id env.now f.name)
      = true := by
  have h0 : (f.size == 0) = false := by
    simp only [beq_eq_false_iff_ne]; omega
  have h2 : (f.size > 2 * 1024 * 1024) = False := by
    simp only [eq_iff_iff, iff_false]; omega
  have him2 : beginsWith ['i', 'm', 'a', 'g', 'e', '/'] f.type.data = true := him
  refine ⟨?_, ?_, ?_⟩ <;>
    simp [uploadAvatar, hu, h0, h2, him2, hup, hurl, List.contains, List.mem_append]

/-- Witness for C10 at a concrete environment and file. -/
theorem claim_C10_url_failure_leaves_object_witness :
    (uploadAvatar wEnvUrlFail (some wFile)).result = .err "Failed to get avatar URL." ∧
    (uploadAvatar wEnvUrlFail (some wFile)).trace =
      [Op.getUser, Op.storageUpload "avatars" (avatarFilePath wUser.id wEnvUrlFail.now wFile.name),
       Op.storageGetPublicUrl "avatars" (avatarFilePath wUser.id wEnvUrlFail.now wFile.name)] ∧
    (uploadAvatar wEnvUrlFail (some wFile)).storage.contains
        (avatarFilePath wUser.id wEnvUrlFail.now wFile.name) = true :=
  claim_C10_url_failure_leaves_object wEnvUrlFail wUser wFile rfl (by decide) (by decide)
    (by decide) rfl rfl

/-- Every session event sets `loading` to false, so once false it stays
false over any configured-mode continuation. -/
theorem loading_false_preserved (evs : List (Option SessionT × Option Profile))
    (st : AuthState) (h : st.loading = false) :
    ((evs.map fun p => AuthEvent.sessionEvent p.1 p.2).foldl authStep st).loading = false := by
  induction evs generalizing st with
  | nil => simpa using h
  | cons e rest ih =>
    simp only [List.map_cons, List.foldl_cons]
    exact ih _ rfl

/-- Claim C3: the mirrored identity is always either `none` or an identity
whose `profile` is exactly the outcome of the profile fetch (present iff
the fetch succeeded); a user whose profile fetch fails is still mirrored as
present, never as `none`.  Demo mount carries the synthesized profile, and
demo sign-in/sign-up synthesize an identity with no profile (no fetch is
made); only a userless session or demo sign-out yield `none`. -/
theorem claim_C3_identity_profile_invariant :
    (∀ (st : AuthState) (sess : SessionT) (fetched : Option Profile),
        (authStep st (.sessionEvent (some sess) fetched)).user = some ⟨sess.user, fetched⟩) ∧
    (∀ (st : AuthState) (sess : SessionT),
        ((authStep st (.sessionEvent (some sess) none)).user).isSome = true) ∧
    (∀ (st : AuthState) (fetched : Option Profile),
        (authStep st (.sessionEvent none fetched)).user = none) ∧
    (∀ (st : AuthState) (now : Nat),
        (authStep st (.mountDemo now)).user = some ⟨demoUser, some (demoProfile now)⟩) ∧
    (∀ (st : AuthState) (email : String),
        (authStep st (.demoSignIn email)).user = some ⟨demoSignInUser email, none⟩) ∧
    (∀ (st : AuthState) (email : String),
        (authStep st (.demoSignUp email)).user = some ⟨demoSignInUser email, none⟩) ∧
    (∀ st : AuthState, (authStep st .demoSignOut).user = none) :=
  ⟨fun _ _ _ => rfl, fun _ _ => rfl, fun _ _ => rfl, fun _ _ => rfl,
   fun _ _ => rfl, fun _ _ => rfl, fun _ => rfl⟩

/-- Claim C8: in configured mode `loading` starts true and is set to false
by the first session resolution; every session event leaves it false and
updates the mirrored session and identity, so after any nonempty
configured-mode run `loading` is false — it becomes false exactly once and
never toggles back to true. -/
theorem claim_C8_loading_once :
    initState.loading = true ∧
    (∀ (st : AuthState) (s : Option SessionT) (fetched : Option Profile),
        (authStep st (.sessionEvent s fetched)).loading = false) ∧
    (∀ (st : AuthState) (s : Option SessionT) (fetched : Option Profile),
        (authStep st (.sessionEvent s fetched)).session = s) ∧
    (∀ (st : AuthState) (sess : SessionT) (fetched : Option Profile),
        (authStep st (.sessionEvent (some sess) fetched)).user = some ⟨sess.user, fetched⟩) ∧
    (∀ (e0 : Option SessionT × Option Profile)
        (rest : List (Option SessionT × Option Profile)),
        (runConfigured (e0 :: rest)).loading = false) := by
  refine ⟨rfl, fun _ _ _ => rfl, fun _ _ _ => rfl, fun _ _ _ => rfl, ?_⟩
  intro e0 rest
  exact loading_false_preserved rest _ rfl
